import Mathlib

/-!
Shallow embedding of the PiControl Hub pairing/orchestration core
(src/pi_control_hub/database.py and src/pi_control_hub/driver_manager.py).

Conventions of the embedding:
* Python exceptions become the `Err` sum type; a method that may raise
  returns `Except Err α`.
* The `Shelve` singleton's persistent dictionary becomes the explicit
  `Store` (an association list keyed by the structured shelve key that
  `json.dumps` serialises); the `TTLCache` becomes the explicit `Cache`
  association list.  TTL expiry and LRU eviction only remove entries, so
  they are modelled by quantifying over cache states: an expired entry
  behaves exactly like an absent one.
* Optional Python strings (`str = None` defaults, `is None` checks) become
  `Option String`; `pyStr` is Python's `str()` on such a value.
* Calls into the external driver plugins are recorded in a `DriverEvent`
  trace so that "no driver capability was invoked" is a statement about
  the returned trace.  Each stateful method returns its result, the new
  manager state and the events it emitted.
-/

set_option autoImplicit false

namespace PiControlHub

/-- Python's rendering `str(x)` of an optional string: `None` prints as "None". -/
def pyStr : Option String → String
  | none => "None"
  | some s => s

/-- The error conditions of database.py and driver_manager.py.
`driverNotFound` is DriverNotFoundException, `deviceNotFound` is the hub's
DeviceNotFoundException with its three optional constructor arguments,
`pairing` is PairingException, `invalidKey` is InvalidKeyException,
`deviceDriver` is the driver api's DeviceDriverException and `keyError` is
Python's KeyError escaping a store access.  `typeConfusion` marks a cache
hit whose stored value has the wrong shape for the requesting call site
(reachable in Python because one TTLCache serves both the device-listing
and the device-instance key namespaces). -/
inductive Err where
  | driverNotFound (driver_id : Option String)
  | deviceNotFound (driver_id device_id message : Option String)
  | pairing (driver_id device_id pairing_id : String)
  | invalidKey
  | deviceDriver (msg : String)
  | keyError
  | typeConfusion
deriving Repr

/-- `__str__` of DeviceNotFoundException (driver_manager.py lines 46-49):
the explicit message if one was given, otherwise the generic
driver/device template. -/
def deviceNotFoundStr (driver_id device_id message : Option String) : String :=
  match message with
  | some m => m
  | none =>
    "The driver with the ID '" ++ pyStr driver_id ++
      "' doesn't find a device with ID '" ++ pyStr device_id ++ "'."

/-- A paired-device record (database.py class PairedDevice).  The fields
hold optional strings because the Python constructor accepts `None`
(`device_name` even defaults to it) and `pairing_id` checks for it. -/
structure PairedDevice where
  driver_id : Option String
  device_id : Option String
  device_name : Option String
deriving Repr

/-- `PairedDevice.pairing_id` (database.py lines 84-90): raises
InvalidKeyException if either key component is None, otherwise the
composite "driver.device" string. -/
def PairedDevice.pairing_id (pd : PairedDevice) : Except Err String :=
  match pd.driver_id, pd.device_id with
  | some drv, some dev => .ok (drv ++ "." ++ dev)
  | _, _ => .error .invalidKey

/-- The structured shelve key `{"class": ..., "pairing_id": ...}`;
`json.dumps` serialises such dictionaries injectively, so key equality in
the shelve is structural equality here. -/
structure ShelveKey where
  cls : String
  pairing_id : String
deriving DecidableEq, Repr

/-- `PairedDevice.key_from_pairing_id` (database.py lines 113-119). -/
def key_from_pairing_id (pairing_id : String) : ShelveKey :=
  ⟨"PairedDevice", pairing_id⟩

/-- `PairedDevice.key` (database.py lines 107-111): the shelve key of the
record, propagating InvalidKeyException from `pairing_id`. -/
def PairedDevice.key (pd : PairedDevice) : Except Err ShelveKey :=
  match pd.pairing_id with
  | .error e => .error e
  | .ok pid => .ok (key_from_pairing_id pid)

/-- The contents of the shelve (database.py class Shelve): a dictionary
from serialised keys to paired-device records. -/
def Store := List (ShelveKey × PairedDevice)

/-- Dictionary lookup `db[key_str]` underlying `Shelve.load`. -/
def Store.lookup (st : Store) (k : ShelveKey) : Option PairedDevice :=
  match st with
  | [] => none
  | (k', v) :: rest => if k' = k then some v else Store.lookup rest k

/-- `Shelve.save` (database.py lines 56-61): `db[key_str] = entity`, i.e.
overwrite the binding if the key is present, otherwise add it. -/
def Store.save (st : Store) (k : ShelveKey) (v : PairedDevice) : Store :=
  match st with
  | [] => [(k, v)]
  | (k', v') :: rest =>
    if k' = k then (k, v) :: rest else (k', v') :: Store.save rest k v

/-- `Shelve.delete` (database.py lines 63-68): `del db[key_str]`, which
raises KeyError (`none` here) if the key is absent. -/
def Store.delete (st : Store) (k : ShelveKey) : Option Store :=
  match Store.lookup st k with
  | none => none
  | some _ => some (List.filter (fun p => decide (p.1 ≠ k)) st)

/-- `Shelve.keys` (database.py lines 70-73). -/
def Store.keys (st : Store) : List ShelveKey :=
  st.map Prod.fst

/-- Device metadata supplied by a driver (driver api DeviceInfo). -/
structure DeviceInfo where
  device_id : String
  name : String
deriving DecidableEq, Repr

/-- One invocable device command (driver api DeviceCommand). -/
structure DeviceCommand where
  cmd_id : Nat
  title : String
deriving DecidableEq, Repr

/-- A live device-instance handle (driver api DeviceDriver).  Its identity
plus its command capabilities: `get_command` and `execute_cmd` may raise a
driver-internal error (modelled by the message string). -/
structure DeviceInstance where
  instance_id : Nat
  get_command : Nat → Except String DeviceCommand
  execute_cmd : DeviceCommand → Except String Unit

/-- An installed driver plugin (driver api DeviceDriverDescriptor) with
the capabilities the orchestration core calls: device enumeration,
pairing finalisation and device instantiation.  Each capability may fail
with a driver-internal error message (DeviceDriverException). -/
structure DeviceDriverDescriptor where
  driver_id : String
  display_name : String
  get_devices : Except String (List DeviceInfo)
  finalize : String → String → Bool → Except String Bool
  create_device_instance : String → Except String DeviceInstance

/-- The plugin-discovery result `installed_drivers()`: the environment the
manager runs against, held fixed across the calls of one scenario. -/
def Env := List DeviceDriverDescriptor

/-- A value held by the shared TTLCache: either a device listing (under a
"devices(...)" key) or a live device instance (under a raw pairing-ID key). -/
inductive CacheVal where
  | listing (devices : List DeviceInfo)
  | inst (device_instance : DeviceInstance)

/-- The TTLCache contents as an association list from string keys to values. -/
def Cache := List (String × CacheVal)

/-- Cache membership test `key in self._cache` / read `self._cache[key]`. -/
def Cache.lookup (c : Cache) (k : String) : Option CacheVal :=
  match c with
  | [] => none
  | (k', v) :: rest => if k' = k then some v else Cache.lookup rest k

/-- Cache write `self._cache[key] = value`. -/
def Cache.insert (c : Cache) (k : String) (v : CacheVal) : Cache :=
  match c with
  | [] => [(k, v)]
  | (k', v') :: rest =>
    if k' = k then (k, v) :: rest else (k', v') :: Cache.insert rest k v

/-- One call into the external driver layer (plugin discovery or a driver
capability). -/
inductive DriverEvent where
  | listDrivers
  | getDevices (driver_id : String)
  | finalizePairing (driver_id pairing_request_id : String)
  | createInstance (driver_id device_id : String)
  | getCommand (instance_id command_id : Nat)
  | executeCommand (instance_id : Nat) (cmd : DeviceCommand)

/-- The mutable state of the DriverManager singleton together with the
shelve: the shared TTLCache and the persistent paired-device store. -/
structure ManagerState where
  cache : Cache
  store : Store

/-- The outcome of one stateful DriverManager call: its result or raised
exception, the manager state it leaves behind, and the driver-layer calls
it made. -/
structure MRes (α : Type) where
  res : Except Err α
  state : ManagerState
  events : List DriverEvent

/-- `DriverManager.read_drivers` (driver_manager.py lines 70-73): the
plugin-discovery result, one discovery call. -/
def read_drivers (env : Env) : List DeviceDriverDescriptor × List DriverEvent :=
  (env, [.listDrivers])

/-- `DriverManager.retrieve_driver` (driver_manager.py lines 75-85): the
first installed descriptor whose `str(driver_id)` equals the argument,
DriverNotFoundException otherwise.  The argument is optional because the
pairing-ID path can feed a record's `None` field through it; comparing a
string with `None` is simply unequal in Python. -/
def retrieve_driver (env : Env) (driver_id : Option String) :
    Except Err DeviceDriverDescriptor × List DriverEvent :=
  match (read_drivers env).1.filter
      (fun descriptor => some descriptor.driver_id == driver_id) with
  | [] => (.error (.driverNotFound driver_id), (read_drivers env).2)
  | d :: _ => (.ok d, (read_drivers env).2)

/-- `DriverManager.read_devices` (driver_manager.py lines 87-97): return
the cached listing under the key "devices(<driver_id>)" if present,
otherwise resolve the driver, ask it for its devices and cache the result. -/
def read_devices (env : Env) (s : ManagerState) (driver_id : Option String) :
    MRes (List DeviceInfo) :=
  let cache_key := "devices(" ++ pyStr driver_id ++ ")"
  match Cache.lookup s.cache cache_key with
  | some (.listing devices) => ⟨.ok devices, s, []⟩
  | some (.inst _) => ⟨.error .typeConfusion, s, []⟩
  | none =>
    match retrieve_driver env driver_id with
    | (.error e, ev) => ⟨.error e, s, ev⟩
    | (.ok driver_descriptor, ev) =>
      match driver_descriptor.get_devices with
      | .error msg =>
        ⟨.error (.deviceDriver msg), s,
          ev ++ [.getDevices driver_descriptor.driver_id]⟩
      | .ok devices =>
        ⟨.ok devices,
          ⟨Cache.insert s.cache cache_key (.listing devices), s.store⟩,
          ev ++ [.getDevices driver_descriptor.driver_id]⟩

/-- `DriverManager.retrieve_driver_and_device` (driver_manager.py lines
99-105): resolve the driver, list its devices, filter by device ID;
DeviceNotFoundException (with keyword driver and device arguments) if no
device matches. -/
def retrieve_driver_and_device (env : Env) (s : ManagerState)
    (driver_id device_id : Option String) :
    MRes (DeviceDriverDescriptor × DeviceInfo) :=
  match retrieve_driver env driver_id with
  | (.error e, ev) => ⟨.error e, s, ev⟩
  | (.ok driver, ev1) =>
    match read_devices env s driver_id with
    | ⟨.error e, s2, ev2⟩ => ⟨.error e, s2, ev1 ++ ev2⟩
    | ⟨.ok devices, s2, ev2⟩ =>
      match devices.filter (fun d => some d.device_id == device_id) with
      | [] => ⟨.error (.deviceNotFound driver_id device_id none), s2, ev1 ++ ev2⟩
      | d :: _ => ⟨.ok (driver, d), s2, ev1 ++ ev2⟩

/-- The body of `DriverManager.finalize_pairing`'s try block
(driver_manager.py lines 122-134): resolve driver and device, delegate to
the driver's pairing-completion capability, and on a `True` outcome save a
fresh PairedDevice record under its shelve key before returning. -/
def finalize_pairing_body (env : Env) (s : ManagerState)
    (driver_id device_id pairing_request_id credentials : String)
    (device_provides_pin : Bool) : MRes Bool :=
  match retrieve_driver_and_device env s (some driver_id) (some device_id) with
  | ⟨.error e, s2, ev⟩ => ⟨.error e, s2, ev⟩
  | ⟨.ok (driver, device), s2, ev⟩ =>
    let ev2 := ev ++ [.finalizePairing driver.driver_id pairing_request_id]
    match driver.finalize pairing_request_id credentials device_provides_pin with
    | .error msg => ⟨.error (.deviceDriver msg), s2, ev2⟩
    | .ok paired =>
      if paired then
        let paired_device : PairedDevice :=
          ⟨some driver_id, some device_id, some device.name⟩
        match paired_device.key with
        | .error e => ⟨.error e, s2, ev2⟩
        | .ok k =>
          ⟨.ok true, ⟨s2.cache, Store.save s2.store k paired_device⟩, ev2⟩
      else ⟨.ok false, s2, ev2⟩

/-- `DriverManager.finalize_pairing` (driver_manager.py lines 114-136):
the try body with its `except (DeviceDriverException, InvalidKeyException)`
handler, which re-raises as PairingException(driver, device, request). -/
def finalize_pairing (env : Env) (s : ManagerState)
    (driver_id device_id pairing_request_id credentials : String)
    (device_provides_pin : Bool) : MRes Bool :=
  match finalize_pairing_body env s driver_id device_id pairing_request_id
      credentials device_provides_pin with
  | ⟨.error (.deviceDriver _), s2, ev⟩ =>
    ⟨.error (.pairing driver_id device_id pairing_request_id), s2, ev⟩
  | ⟨.error .invalidKey, s2, ev⟩ =>
    ⟨.error (.pairing driver_id device_id pairing_request_id), s2, ev⟩
  | r => r

/-- The DeviceNotFoundException raised on a failed pairing-ID lookup
(driver_manager.py lines 148, 155, 175, 185, 194, 201).  The message
string is passed POSITIONALLY, so it lands in the constructor's first
parameter `driver_id`; `device_id` and `message` stay `None`. -/
def pairing_id_not_found (pairing_id : String) : Err :=
  .deviceNotFound
    (some ("The device with the pairing ID '" ++ pairing_id ++ "' wasn't found."))
    none none

/-- `DriverManager.get_paired_device` (driver_manager.py lines 143-148):
shelve lookup by the pairing-ID key; a KeyError becomes the
DeviceNotFoundException of `pairing_id_not_found`. -/
def get_paired_device (store : Store) (pairing_id : String) :
    Except Err PairedDevice :=
  match Store.lookup store (key_from_pairing_id pairing_id) with
  | some pd => .ok pd
  | none => .error (pairing_id_not_found pairing_id)

/-- `DriverManager.unpair_device` (driver_manager.py lines 150-155):
delete the shelve record; a KeyError becomes the DeviceNotFoundException
of `pairing_id_not_found`.  The TTLCache is not touched. -/
def unpair_device (s : ManagerState) (pairing_id : String) :
    Except Err Unit × ManagerState :=
  match Store.delete s.store (key_from_pairing_id pairing_id) with
  | some store2 => (.ok (), ⟨s.cache, store2⟩)
  | none => (.error (pairing_id_not_found pairing_id), s)

/-- `DriverManager.device_instance_for_pairing_id` (driver_manager.py
lines 157-166): cache hit under the raw pairing-ID key, or else load the
paired-device record, re-resolve driver and device, instantiate a live
handle, cache it and return it. -/
def device_instance_for_pairing_id (env : Env) (s : ManagerState)
    (pairing_id : String) : MRes DeviceInstance :=
  match Cache.lookup s.cache pairing_id with
  | some (.inst device_instance) => ⟨.ok device_instance, s, []⟩
  | some (.listing _) => ⟨.error .typeConfusion, s, []⟩
  | none =>
    match get_paired_device s.store pairing_id with
    | .error e => ⟨.error e, s, []⟩
    | .ok paired_device =>
      match retrieve_driver_and_device env s
          paired_device.driver_id paired_device.device_id with
      | ⟨.error e, s2, ev⟩ => ⟨.error e, s2, ev⟩
      | ⟨.ok (driver, device), s2, ev⟩ =>
        match driver.create_device_instance device.device_id with
        | .error msg =>
          ⟨.error (.deviceDriver msg), s2,
            ev ++ [.createInstance driver.driver_id device.device_id]⟩
        | .ok device_instance =>
          ⟨.ok device_instance,
            ⟨Cache.insert s2.cache pairing_id (.inst device_instance), s2.store⟩,
            ev ++ [.createInstance driver.driver_id device.device_id]⟩

/-- The `except KeyError` handler shared by the command-oriented calls
(driver_manager.py lines 174-175, 184-185, 193-194, 200-201): a KeyError
becomes the DeviceNotFoundException of `pairing_id_not_found`.  (In this
sequential model no KeyError escapes `device_instance_for_pairing_id` —
`get_paired_device` already converts it — so the handler is dead code,
kept for faithfulness.) -/
def wrap_key_error {α : Type} (pairing_id : String) :
    Except Err α → Except Err α
  | .error .keyError => .error (pairing_id_not_found pairing_id)
  | r => r

/-- `DriverManager.execute_device_command` (driver_manager.py lines
187-194): resolve the live instance, fetch the command by ID, execute it;
KeyError is wrapped by the handler above. -/
def execute_device_command (env : Env) (s : ManagerState)
    (pairing_id : String) (command_id : Nat) : MRes Unit :=
  match device_instance_for_pairing_id env s pairing_id with
  | ⟨.error e, s2, ev⟩ => ⟨wrap_key_error pairing_id (.error e), s2, ev⟩
  | ⟨.ok device_instance, s2, ev⟩ =>
    let ev2 := ev ++ [.getCommand device_instance.instance_id command_id]
    match device_instance.get_command command_id with
    | .error msg =>
      ⟨wrap_key_error pairing_id (.error (.deviceDriver msg)), s2, ev2⟩
    | .ok device_command =>
      let ev3 := ev2 ++ [.executeCommand device_instance.instance_id device_command]
      match device_instance.execute_cmd device_command with
      | .error msg =>
        ⟨wrap_key_error pairing_id (.error (.deviceDriver msg)), s2, ev3⟩
      | .ok u => ⟨.ok u, s2, ev3⟩

/-- Eviction of one key from the TTLCache (what TTL expiry or LRU eviction
does to that entry); used to state the spec's "forcing eviction" reading of
cache transparency. -/
def Cache.erase (c : Cache) (k : String) : Cache :=
  List.filter (fun p => decide (p.1 ≠ k)) c

/-! ### Concrete fixtures for the scenario witnesses -/

/-- A concrete live device instance for the concrete scenarios. -/
def demo_instance : DeviceInstance :=
  ⟨1, fun command_id => .ok ⟨command_id, "power"⟩, fun _ => .ok ()⟩

/-- A concrete installed driver: "sony-tv" exposing the device
"livingroom", pairing always succeeding. -/
def demo_driver : DeviceDriverDescriptor :=
  ⟨"sony-tv", "Sony TV", .ok [⟨"livingroom", "Living Room TV"⟩],
    fun _ _ _ => .ok true, fun _ => .ok demo_instance⟩

/-- An installation with exactly the demo driver. -/
def demo_env : Env := [demo_driver]

/-- The manager before anything was cached or paired. -/
def empty_state : ManagerState := ⟨[], []⟩

/-- The manager state the demo pairing leaves behind: the device listing
cached under "devices(sony-tv)" and the paired-device record stored under
its pairing-ID key. -/
def demo_paired_state : ManagerState :=
  ⟨[("devices(sony-tv)", .listing [⟨"livingroom", "Living Room TV"⟩])],
    [(⟨"PairedDevice", "sony-tv.livingroom"⟩,
      ⟨some "sony-tv", some "livingroom", some "Living Room TV"⟩)]⟩

/-- The driver-layer calls of the demo pairing from the empty state. -/
def demo_pair_events : List DriverEvent :=
  [.listDrivers, .listDrivers, .getDevices "sony-tv",
    .finalizePairing "sony-tv" "req-1"]

/-- The driver-layer calls of a second demo pairing (the listing is now
cached, so device enumeration is not repeated). -/
def demo_pair_events2 : List DriverEvent :=
  [.listDrivers, .finalizePairing "sony-tv" "req-1"]

/-- A cache state holding a stale device listing for the uninstalled
driver "ghost". -/
def stale_listing_state : ManagerState :=
  ⟨[("devices(ghost)", .listing [⟨"d1", "Ghost Device"⟩])], []⟩

/-- The manager state after resolving the demo instance from
`demo_paired_state`: the live handle is now cached under the raw
pairing-ID key. -/
def demo_cached_state : ManagerState :=
  ⟨[("devices(sony-tv)", .listing [⟨"livingroom", "Living Room TV"⟩]),
    ("sony-tv.livingroom", .inst demo_instance)],
    [(⟨"PairedDevice", "sony-tv.livingroom"⟩,
      ⟨some "sony-tv", some "livingroom", some "Living Room TV"⟩)]⟩

/-- `demo_cached_state` after `unpair_device`: the store record is gone
but the cache — including the live-instance entry — is untouched. -/
def demo_stale_state : ManagerState :=
  ⟨[("devices(sony-tv)", .listing [⟨"livingroom", "Living Room TV"⟩]),
    ("sony-tv.livingroom", .inst demo_instance)], []⟩

/-- The spec's forced-eviction reading of `resolve_instance`: run
`device_instance_for_pairing_id` with the pairing-ID cache entry evicted
(exactly what TTL expiry or LRU eviction does to it), so the miss path is
always taken. -/
def resolve_instance_evicted (env : Env) (s : ManagerState) (pid : String) :
    MRes DeviceInstance :=
  device_instance_for_pairing_id env ⟨Cache.erase s.cache pid, s.store⟩ pid

/-- The cache entry under the pairing ID (when present) is a live
instance agreeing with what the forced-eviction path computes — the
coherence every entry written by the code itself enjoys while the
environment stays fixed. -/
def cache_coherent_at (env : Env) (s : ManagerState) (pid : String) : Prop :=
  ∀ v, Cache.lookup s.cache pid = some v →
    ∃ di, v = .inst di ∧ (resolve_instance_evicted env s pid).res = .ok di

/-! ### Dictionary lemmas for the store and the cache -/

theorem Store.lookup_save_self (st : Store) (k : ShelveKey) (v : PairedDevice) :
    Store.lookup (Store.save st k v) k = some v := by
  induction st with
  | nil => simp [Store.save, Store.lookup]
  | cons p rest ih =>
    obtain ⟨k', v'⟩ := p
    by_cases h : k' = k <;> simp [Store.save, Store.lookup, h, ih]

theorem Store.lookup_filter_self (st : Store) (k : ShelveKey) :
    Store.lookup (List.filter (fun p => decide (p.1 ≠ k)) st) k = none := by
  induction st with
  | nil => rfl
  | cons p rest ih =>
    obtain ⟨k', v'⟩ := p
    by_cases h : k' = k
    · simpa [List.filter_cons, h] using ih
    · simpa [List.filter_cons, h, Store.lookup] using ih

theorem Store.delete_of_lookup_some (st : Store) (k : ShelveKey)
    (v : PairedDevice) (h : Store.lookup st k = some v) :
    Store.delete st k = some (List.filter (fun p => decide (p.1 ≠ k)) st) := by
  simp [Store.delete, h]

theorem Store.keys_save_present (st : Store) (k : ShelveKey) (v v' : PairedDevice)
    (h : Store.lookup st k = some v') :
    Store.keys (Store.save st k v) = Store.keys st := by
  induction st with
  | nil => simp [Store.lookup] at h
  | cons p rest ih =>
    obtain ⟨k', v''⟩ := p
    by_cases hk : k' = k
    · simp [Store.save, Store.keys, hk]
    · simp [Store.lookup, hk] at h
      simp [Store.save, Store.keys, hk] at ih ⊢
      exact ih h

theorem Cache.lookup_insert_self (c : Cache) (k : String) (v : CacheVal) :
    Cache.lookup (Cache.insert c k v) k = some v := by
  induction c with
  | nil => simp [Cache.insert, Cache.lookup]
  | cons p rest ih =>
    obtain ⟨k', v'⟩ := p
    by_cases h : k' = k <;> simp [Cache.insert, Cache.lookup, h, ih]

theorem Cache.lookup_insert_ne (c : Cache) (k k' : String) (v : CacheVal)
    (h : k' ≠ k) : Cache.lookup (Cache.insert c k v) k' = Cache.lookup c k' := by
  induction c with
  | nil => simp [Cache.insert, Cache.lookup, Ne.symm h]
  | cons p rest ih =>
    obtain ⟨k'', v'⟩ := p
    by_cases hk : k'' = k <;> by_cases hk' : k'' = k' <;>
      simp_all [Cache.insert, Cache.lookup]

theorem Cache.lookup_erase_self (c : Cache) (k : String) :
    Cache.lookup (Cache.erase c k) k = none := by
  induction c with
  | nil => rfl
  | cons p rest ih =>
    obtain ⟨k', v'⟩ := p
    by_cases h : k' = k
    · simpa [Cache.erase, List.filter_cons, h] using ih
    · simpa [Cache.erase, List.filter_cons, h, Cache.lookup] using ih

theorem Cache.lookup_erase_ne (c : Cache) (k k' : String) (h : k' ≠ k) :
    Cache.lookup (Cache.erase c k) k' = Cache.lookup c k' := by
  induction c with
  | nil => rfl
  | cons p rest ih =>
    obtain ⟨k'', v'⟩ := p
    by_cases hk : k'' = k <;> by_cases hk' : k'' = k' <;>
      simp_all [Cache.erase, List.filter_cons, Cache.lookup]

theorem Cache.erase_of_lookup_none (c : Cache) (k : String)
    (h : Cache.lookup c k = none) : Cache.erase c k = c := by
  induction c with
  | nil => rfl
  | cons p rest ih =>
    obtain ⟨k', v'⟩ := p
    by_cases hk : k' = k
    · simp [Cache.lookup, hk] at h
    · simp [Cache.lookup, hk] at h
      have h2 := ih h
      simp only [Cache.erase, ne_eq, decide_not] at h2 ⊢
      simp [List.filter_cons, hk, h2]

/-! ### Frame lemmas: which state components each operation can change -/

theorem read_devices_store (env : Env) (s : ManagerState) (d : Option String) :
    (read_devices env s d).state.store = s.store := by
  unfold read_devices
  dsimp only
  split
  · rfl
  · rfl
  · split
    · rfl
    · split <;> rfl

theorem retrieve_driver_and_device_store (env : Env) (s : ManagerState)
    (a b : Option String) :
    (retrieve_driver_and_device env s a b).state.store = s.store := by
  unfold retrieve_driver_and_device
  rcases h1 : retrieve_driver env a with ⟨r1, ev1⟩
  cases r1 with
  | error e => rfl
  | ok driver =>
    rcases h2 : read_devices env s a with ⟨r2, s2, ev2⟩
    have hs2 : s2.store = s.store := by
      have := read_devices_store env s a
      rw [h2] at this
      exact this
    cases r2 with
    | error e => exact hs2
    | ok devices =>
      dsimp only
      split <;> exact hs2

theorem device_instance_for_pairing_id_store (env : Env) (s : ManagerState)
    (pid : String) :
    (device_instance_for_pairing_id env s pid).state.store = s.store := by
  unfold device_instance_for_pairing_id
  split
  · rfl
  · rfl
  · split
    · rfl
    · rename_i pd hpd
      rcases h2 : retrieve_driver_and_device env s pd.driver_id pd.device_id
        with ⟨r2, s2, ev2⟩
      have hs2 : s2.store = s.store := by
        have := retrieve_driver_and_device_store env s pd.driver_id pd.device_id
        rw [h2] at this
        exact this
      cases r2 with
      | error e => exact hs2
      | ok dd =>
        obtain ⟨driver, device⟩ := dd
        dsimp only
        split <;> exact hs2

/-- The body of finalize_pairing leaves the store unchanged unless it
returns `.ok true` (the all-or-nothing write). -/
theorem finalize_pairing_body_store_frame (env : Env) (s : ManagerState)
    (drv dev req cred : String) (flag : Bool)
    (h : (finalize_pairing_body env s drv dev req cred flag).res ≠ .ok true) :
    (finalize_pairing_body env s drv dev req cred flag).state.store = s.store := by
  rcases h1 : retrieve_driver_and_device env s (some drv) (some dev) with ⟨r1, s1, ev1⟩
  have hs1 : s1.store = s.store := by
    have := retrieve_driver_and_device_store env s (some drv) (some dev)
    rw [h1] at this
    exact this
  unfold finalize_pairing_body at h ⊢
  rw [h1] at h ⊢
  cases r1 with
  | error e => exact hs1
  | ok dd =>
    obtain ⟨driver, device⟩ := dd
    simp only [] at h ⊢
    rcases h2 : driver.finalize req cred flag with msg | paired
    · exact hs1
    · cases paired with
      | true =>
        rw [h2] at h
        exact absurd rfl h
      | false => exact hs1

/-- `finalize_pairing` returning `.ok b` means its try body returned the
same: the except handler only rewrites the two caught error kinds. -/
theorem finalize_pairing_ok_body (env : Env) (s : ManagerState)
    (drv dev req cred : String) (flag : Bool) (b : Bool) (s1 : ManagerState)
    (ev : List DriverEvent)
    (h : finalize_pairing env s drv dev req cred flag = ⟨.ok b, s1, ev⟩) :
    finalize_pairing_body env s drv dev req cred flag = ⟨.ok b, s1, ev⟩ := by
  unfold finalize_pairing at h
  rcases hb : finalize_pairing_body env s drv dev req cred flag with ⟨r, s2, ev2⟩
  rw [hb] at h
  cases r with
  | ok b' => exact h
  | error e => cases e <;> simp at h

/-- A successful `finalize_pairing` writes exactly one record — the fresh
PairedDevice for (drv, dev) — under its pairing-ID key, on top of the
store the resolution step left (which is the initial store). -/
theorem finalize_pairing_ok_true_shape (env : Env) (s : ManagerState)
    (drv dev req cred : String) (flag : Bool) (s1 : ManagerState)
    (ev : List DriverEvent)
    (h : finalize_pairing env s drv dev req cred flag = ⟨.ok true, s1, ev⟩) :
    ∃ name : String,
      s1.store = Store.save s.store (key_from_pairing_id (drv ++ "." ++ dev))
        ⟨some drv, some dev, some name⟩ := by
  have hb := finalize_pairing_ok_body env s drv dev req cred flag true s1 ev h
  rcases h1 : retrieve_driver_and_device env s (some drv) (some dev) with ⟨r1, s2, ev1⟩
  have hs2 : s2.store = s.store := by
    have := retrieve_driver_and_device_store env s (some drv) (some dev)
    rw [h1] at this
    exact this
  unfold finalize_pairing_body at hb
  rw [h1] at hb
  cases r1 with
  | error e => simp at hb
  | ok dd =>
    obtain ⟨driver, device⟩ := dd
    simp only [] at hb
    rcases h2 : driver.finalize req cred flag with msg | paired
    · rw [h2] at hb
      simp at hb
    · rw [h2] at hb
      cases paired with
      | false => simp at hb
      | true =>
        refine ⟨device.name, ?_⟩
        have hst :
            (⟨s2.cache, Store.save s2.store (key_from_pairing_id (drv ++ "." ++ dev))
              ⟨some drv, some dev, some device.name⟩⟩ : ManagerState) = s1 :=
          congrArg MRes.state hb
        rw [← hst]
        exact congrArg
          (fun st => Store.save st (key_from_pairing_id (drv ++ "." ++ dev))
            ⟨some drv, some dev, some device.name⟩) hs2

theorem Cache.erase_insert_self (c : Cache) (k : String) (v : CacheVal) :
    Cache.erase (Cache.insert c k v) k = Cache.erase c k := by
  induction c with
  | nil => simp [Cache.insert, Cache.erase, List.filter]
  | cons p rest ih =>
    obtain ⟨k', v'⟩ := p
    by_cases h : k' = k <;> simp_all [Cache.insert, Cache.erase, List.filter_cons]

/-! ### How read_devices and resolution depend on the cache -/

/-- When neither state holds a cached listing for the driver, the device
listing each run returns is the same (both ask the driver afresh). -/
theorem read_devices_res_of_miss_miss (env : Env) (s t : ManagerState)
    (d : Option String)
    (hs : Cache.lookup s.cache ("devices(" ++ pyStr d ++ ")") = none)
    (ht : Cache.lookup t.cache ("devices(" ++ pyStr d ++ ")") = none) :
    (read_devices env t d).res = (read_devices env s d).res := by
  simp only [read_devices]
  rw [hs, ht]
  simp only []
  rcases retrieve_driver env d with ⟨r, ev0⟩
  cases r with
  | error e => rfl
  | ok drv =>
    simp only []
    rcases drv.get_devices with m | devs <;> rfl

/-- A cached listing is returned as-is, with no state change and no
driver call. -/
theorem read_devices_hit (env : Env) (s : ManagerState) (d : Option String)
    (devs : List DeviceInfo)
    (h : Cache.lookup s.cache ("devices(" ++ pyStr d ++ ")") = some (.listing devs)) :
    read_devices env s d = ⟨.ok devs, s, []⟩ := by
  simp only [read_devices]
  rw [h]

/-- After a successful `read_devices`, the returned listing sits in the
cache of the state it leaves behind. -/
theorem read_devices_ok_caches (env : Env) (s s2 : ManagerState)
    (d : Option String) (devs : List DeviceInfo) (ev : List DriverEvent)
    (h : read_devices env s d = ⟨.ok devs, s2, ev⟩) :
    Cache.lookup s2.cache ("devices(" ++ pyStr d ++ ")") = some (.listing devs) := by
  simp only [read_devices] at h
  rcases hc : Cache.lookup s.cache ("devices(" ++ pyStr d ++ ")") with _ | v
  · rw [hc] at h
    rcases hr : retrieve_driver env d with ⟨r, ev0⟩
    rw [hr] at h
    cases r with
    | error e => simp at h
    | ok drv =>
      simp only [] at h
      rcases hg : drv.get_devices with m | l
      · rw [hg] at h
        simp at h
      · rw [hg] at h
        simp only [MRes.mk.injEq, Except.ok.injEq] at h
        obtain ⟨rfl, hstate, -⟩ := h
        rw [← hstate]
        exact Cache.lookup_insert_self _ _ _
  · rw [hc] at h
    cases v with
    | listing l =>
      simp only [MRes.mk.injEq, Except.ok.injEq] at h
      obtain ⟨rfl, hstate, -⟩ := h
      rw [← hstate]
      exact hc
    | inst di => simp at h

/-- The resolution result depends on the manager state only through the
device listing `read_devices` produces. -/
theorem retrieve_driver_and_device_res_eq (env : Env) (s t : ManagerState)
    (a b : Option String)
    (h : (read_devices env t a).res = (read_devices env s a).res) :
    (retrieve_driver_and_device env t a b).res =
      (retrieve_driver_and_device env s a b).res := by
  unfold retrieve_driver_and_device
  rcases hr : retrieve_driver env a with ⟨r, ev0⟩
  cases r with
  | error e => rfl
  | ok driver =>
    rcases hrt : read_devices env t a with ⟨rt, t2, evt⟩
    rcases hrs : read_devices env s a with ⟨rs, s2, evs⟩
    rw [hrt, hrs] at h
    simp only [] at h
    subst h
    cases rt with
    | error e => rfl
    | ok devs =>
      simp only []
      rcases hf : List.filter (fun d0 => some d0.device_id == b) devs
        with _ | ⟨d0, ds⟩ <;> rw [hf]

/-- A successful resolution contains a successful `read_devices` run that
produced the very state the resolution returns. -/
theorem retrieve_driver_and_device_ok_read (env : Env) (s : ManagerState)
    (a b : Option String) (driver : DeviceDriverDescriptor)
    (device : DeviceInfo) (s2 : ManagerState) (ev : List DriverEvent)
    (h : retrieve_driver_and_device env s a b = ⟨.ok (driver, device), s2, ev⟩) :
    ∃ devs ev2, read_devices env s a = ⟨.ok devs, s2, ev2⟩ := by
  unfold retrieve_driver_and_device at h
  rcases hr : retrieve_driver env a with ⟨r, ev0⟩
  rw [hr] at h
  cases r with
  | error e => simp at h
  | ok drv =>
    simp only [] at h
    rcases hrd : read_devices env s a with ⟨rd, s3, ev3⟩
    rw [hrd] at h
    cases rd with
    | error e => simp at h
    | ok devs =>
      simp only [] at h
      rcases hf : devs.filter (fun d0 => some d0.device_id == b) with _ | ⟨d0, ds⟩
      · rw [hf] at h
        simp at h
      · rw [hf] at h
        have hstate : s3 = s2 := by
          have := congrArg MRes.state h
          simpa using this
        exact ⟨devs, ev3, by rw [hstate]⟩

/-! ### C1 — pair / lookup / unpair round trip -/

/-- C1: after a successful `finalize_pairing(drv, dev, ...)`,
`get_paired_device "{drv}.{dev}"` returns a record whose driver_id and
device_id match; after `unpair_device "{drv}.{dev}"` the same lookup
fails with the DeviceNotFoundException for that pairing ID. -/
theorem finalize_get_unpair_roundtrip (env : Env) (s : ManagerState)
    (drv dev req cred : String) (flag : Bool) (s1 : ManagerState)
    (ev : List DriverEvent)
    (h : finalize_pairing env s drv dev req cred flag = ⟨.ok true, s1, ev⟩) :
    (∃ pd : PairedDevice,
      get_paired_device s1.store (drv ++ "." ++ dev) = .ok pd ∧
      pd.driver_id = some drv ∧ pd.device_id = some dev) ∧
    (∃ s2 : ManagerState,
      unpair_device s1 (drv ++ "." ++ dev) = (.ok (), s2) ∧
      get_paired_device s2.store (drv ++ "." ++ dev) =
        .error (pairing_id_not_found (drv ++ "." ++ dev))) := by
  obtain ⟨name, hstore⟩ :=
    finalize_pairing_ok_true_shape env s drv dev req cred flag s1 ev h
  have hlook : Store.lookup s1.store (key_from_pairing_id (drv ++ "." ++ dev)) =
      some ⟨some drv, some dev, some name⟩ := by
    rw [hstore]
    exact Store.lookup_save_self _ _ _
  refine ⟨⟨⟨some drv, some dev, some name⟩, ?_, rfl, rfl⟩, ?_⟩
  · simp [get_paired_device, hlook]
  · refine ⟨⟨s1.cache, List.filter
        (fun p => decide (p.1 ≠ key_from_pairing_id (drv ++ "." ++ dev))) s1.store⟩,
      ?_, ?_⟩
    · simp [unpair_device, Store.delete_of_lookup_some _ _ _ hlook]
    · unfold get_paired_device
      rw [Store.lookup_filter_self]

/-- C1 witness: the demo pairing, looked up and unpaired. -/
theorem finalize_get_unpair_roundtrip_witness :
    finalize_pairing demo_env empty_state "sony-tv" "livingroom" "req-1" "1234" true =
      ⟨.ok true, demo_paired_state, demo_pair_events⟩ ∧
    ((∃ pd : PairedDevice,
        get_paired_device demo_paired_state.store ("sony-tv" ++ "." ++ "livingroom") = .ok pd ∧
        pd.driver_id = some "sony-tv" ∧ pd.device_id = some "livingroom") ∧
      (∃ s2 : ManagerState,
        unpair_device demo_paired_state ("sony-tv" ++ "." ++ "livingroom") = (.ok (), s2) ∧
        get_paired_device s2.store ("sony-tv" ++ "." ++ "livingroom") =
          .error (pairing_id_not_found ("sony-tv" ++ "." ++ "livingroom")))) :=
  ⟨rfl, finalize_get_unpair_roundtrip demo_env empty_state "sony-tv" "livingroom"
    "req-1" "1234" true demo_paired_state demo_pair_events rfl⟩

/-! ### C3 — failure paths of finalize_pairing leave the store unchanged -/

/-- C3: a driver-reported pairing failure makes `finalize_pairing` return
false with the store untouched; an error from the driver's protocol layer
(DeviceDriverException) or from key construction (InvalidKeyException)
inside the try body surfaces as the single PairingException(driver,
device, request), again with the store untouched (all-or-nothing write). -/
theorem finalize_pairing_failure_frame (env : Env) (s : ManagerState)
    (drv dev req cred : String) (flag : Bool) :
    (∀ driver device s2 ev,
      retrieve_driver_and_device env s (some drv) (some dev) =
        ⟨.ok (driver, device), s2, ev⟩ →
      driver.finalize req cred flag = .ok false →
      finalize_pairing env s drv dev req cred flag =
        ⟨.ok false, s2, ev ++ [.finalizePairing driver.driver_id req]⟩ ∧
      s2.store = s.store) ∧
    (∀ msg s2 ev,
      finalize_pairing_body env s drv dev req cred flag =
        ⟨.error (.deviceDriver msg), s2, ev⟩ →
      finalize_pairing env s drv dev req cred flag =
        ⟨.error (.pairing drv dev req), s2, ev⟩ ∧ s2.store = s.store) ∧
    (∀ s2 ev,
      finalize_pairing_body env s drv dev req cred flag =
        ⟨.error .invalidKey, s2, ev⟩ →
      finalize_pairing env s drv dev req cred flag =
        ⟨.error (.pairing drv dev req), s2, ev⟩ ∧ s2.store = s.store) := by
  refine ⟨?_, ?_, ?_⟩
  · intro driver device s2 ev h1 h2
    have hbody : finalize_pairing_body env s drv dev req cred flag =
        ⟨.ok false, s2, ev ++ [.finalizePairing driver.driver_id req]⟩ := by
      unfold finalize_pairing_body
      rw [h1]
      simp only []
      rw [h2]
      rfl
    refine ⟨?_, ?_⟩
    · unfold finalize_pairing
      rw [hbody]
    · have := retrieve_driver_and_device_store env s (some drv) (some dev)
      rw [h1] at this
      exact this
  · intro msg s2 ev h
    refine ⟨?_, ?_⟩
    · unfold finalize_pairing
      rw [h]
    · have hne : (finalize_pairing_body env s drv dev req cred flag).res ≠ .ok true := by
        rw [h]
        simp
      have := finalize_pairing_body_store_frame env s drv dev req cred flag hne
      rw [h] at this
      exact this
  · intro s2 ev h
    refine ⟨?_, ?_⟩
    · unfold finalize_pairing
      rw [h]
    · have hne : (finalize_pairing_body env s drv dev req cred flag).res ≠ .ok true := by
        rw [h]
        simp
      have := finalize_pairing_body_store_frame env s drv dev req cred flag hne
      rw [h] at this
      exact this

/-! ### C8 — pairing twice overwrites under the same key -/

/-- C8: two successful `finalize_pairing` calls for the same driver and
device both store under the pairing-ID key "{drv}.{dev}"; the second call
overwrites the record in place, leaving the list of stored keys unchanged. -/
theorem finalize_pairing_idempotent_overwrite (env : Env)
    (s0 s1 s2 : ManagerState) (drv dev req cred : String) (flag : Bool)
    (ev1 ev2 : List DriverEvent)
    (h1 : finalize_pairing env s0 drv dev req cred flag = ⟨.ok true, s1, ev1⟩)
    (h2 : finalize_pairing env s1 drv dev req cred flag = ⟨.ok true, s2, ev2⟩) :
    (∃ pd1 : PairedDevice,
      Store.lookup s1.store (key_from_pairing_id (drv ++ "." ++ dev)) = some pd1 ∧
      pd1.driver_id = some drv ∧ pd1.device_id = some dev) ∧
    (∃ pd2 : PairedDevice,
      Store.lookup s2.store (key_from_pairing_id (drv ++ "." ++ dev)) = some pd2 ∧
      pd2.driver_id = some drv ∧ pd2.device_id = some dev) ∧
    Store.keys s2.store = Store.keys s1.store := by
  obtain ⟨n1, hs1⟩ := finalize_pairing_ok_true_shape env s0 drv dev req cred flag s1 ev1 h1
  obtain ⟨n2, hs2⟩ := finalize_pairing_ok_true_shape env s1 drv dev req cred flag s2 ev2 h2
  have hl1 : Store.lookup s1.store (key_from_pairing_id (drv ++ "." ++ dev)) =
      some ⟨some drv, some dev, some n1⟩ := by
    rw [hs1]
    exact Store.lookup_save_self _ _ _
  have hl2 : Store.lookup s2.store (key_from_pairing_id (drv ++ "." ++ dev)) =
      some ⟨some drv, some dev, some n2⟩ := by
    rw [hs2]
    exact Store.lookup_save_self _ _ _
  refine ⟨⟨_, hl1, rfl, rfl⟩, ⟨_, hl2, rfl, rfl⟩, ?_⟩
  rw [hs2]
  exact Store.keys_save_present _ _ _ _ hl1

/-- C8 witness: the demo pairing run twice in a row; the second run hits
the cached listing, overwrites the record and leaves the store's keys as
they were. -/
theorem finalize_pairing_idempotent_overwrite_witness :
    finalize_pairing demo_env empty_state "sony-tv" "livingroom" "req-1" "1234" true =
      ⟨.ok true, demo_paired_state, demo_pair_events⟩ ∧
    finalize_pairing demo_env demo_paired_state "sony-tv" "livingroom" "req-1" "1234" true =
      ⟨.ok true, demo_paired_state, demo_pair_events2⟩ ∧
    ((∃ pd1 : PairedDevice,
        Store.lookup demo_paired_state.store
          (key_from_pairing_id ("sony-tv" ++ "." ++ "livingroom")) = some pd1 ∧
        pd1.driver_id = some "sony-tv" ∧ pd1.device_id = some "livingroom") ∧
      (∃ pd2 : PairedDevice,
        Store.lookup demo_paired_state.store
          (key_from_pairing_id ("sony-tv" ++ "." ++ "livingroom")) = some pd2 ∧
        pd2.driver_id = some "sony-tv" ∧ pd2.device_id = some "livingroom") ∧
      Store.keys demo_paired_state.store = Store.keys demo_paired_state.store) :=
  ⟨rfl, rfl, finalize_pairing_idempotent_overwrite demo_env empty_state
    demo_paired_state demo_paired_state "sony-tv" "livingroom" "req-1" "1234" true
    demo_pair_events demo_pair_events2 rfl rfl⟩

/-! ### C4 — get_driver succeeds iff the identifier is installed -/

/-- C4: for every string d, `retrieve_driver d` succeeds with the matching
descriptor if and only if d appears (by exact string comparison of
`driver_id`) in the identifier set of `read_drivers`; for a string not in
that set it fails with DriverNotFoundException. -/
theorem retrieve_driver_iff_installed (env : Env) (d : String) :
    ((∃ desc, (retrieve_driver env (some d)).1 = .ok desc ∧ desc.driver_id = d) ↔
      d ∈ (read_drivers env).1.map DeviceDriverDescriptor.driver_id) ∧
    (d ∉ (read_drivers env).1.map DeviceDriverDescriptor.driver_id →
      retrieve_driver env (some d) = (.error (.driverNotFound (some d)), [.listDrivers])) := by
  constructor
  · constructor
    · rintro ⟨desc, hok, hid⟩
      unfold retrieve_driver at hok
      rcases hf : (read_drivers env).1.filter
          (fun descriptor => some descriptor.driver_id == some d) with _ | ⟨x, xs⟩
      · rw [hf] at hok
        simp at hok
      · rw [hf] at hok
        simp at hok
        subst hok
        have hx := List.mem_filter.mp (hf ▸ List.mem_cons_self x xs)
        exact List.mem_map.mpr ⟨_, hx.1, hid⟩
    · intro hd
      obtain ⟨x, hx, hxd⟩ := List.mem_map.mp hd
      rcases hf : (read_drivers env).1.filter
          (fun descriptor => some descriptor.driver_id == some d) with _ | ⟨y, ys⟩
      · exfalso
        have : x ∈ (read_drivers env).1.filter
            (fun descriptor => some descriptor.driver_id == some d) :=
          List.mem_filter.mpr ⟨hx, by simp [hxd]⟩
        rw [hf] at this
        simp at this
      · have hy := List.mem_filter.mp (hf ▸ List.mem_cons_self y ys)
        refine ⟨y, ?_, by simpa using hy.2⟩
        unfold retrieve_driver
        rw [hf]
  · intro hd
    have hfil : (read_drivers env).1.filter
        (fun descriptor => some descriptor.driver_id == some d) = [] := by
      refine List.filter_eq_nil_iff.mpr (fun x hx => ?_)
      simp only [beq_iff_eq, Option.some.injEq]
      intro he
      exact hd (List.mem_map.mpr ⟨x, hx, he⟩)
    unfold retrieve_driver
    rw [hfil]
    rfl

/-- C4 witness: in the demo installation, "sony-tv" resolves and the
unknown identifier "ghost" fails with DriverNotFoundException. -/
theorem retrieve_driver_iff_installed_witness :
    (∃ desc, (retrieve_driver demo_env (some "sony-tv")).1 = .ok desc ∧
       desc.driver_id = "sony-tv") ∧
    retrieve_driver demo_env (some "ghost") =
      (.error (.driverNotFound (some "ghost")), [.listDrivers]) :=
  ⟨(retrieve_driver_iff_installed demo_env "sony-tv").1.mpr (by
      simp [read_drivers, demo_env, demo_driver]),
    (retrieve_driver_iff_installed demo_env "ghost").2 (by
      simp [read_drivers, demo_env, demo_driver])⟩

/-! ### C5 — pairing-ID construction and missing key components -/

/-- C5 counterexample: the code guards against None components, not empty
ones.  The record with driver_id "" and device_id "x" has an empty
driver_id, yet `pairing_id` succeeds with ".x" — refuting "succeeds iff
both components are non-empty". -/
theorem pairing_id_empty_component_cex :
    PairedDevice.pairing_id ⟨some "", some "x", none⟩ = .ok ".x" ∧
    ¬ (∀ pd : PairedDevice, (∃ pid, pd.pairing_id = .ok pid) →
        (∃ drv, pd.driver_id = some drv ∧ drv ≠ "") ∧
        (∃ dev, pd.device_id = some dev ∧ dev ≠ "")) := by
  refine ⟨rfl, fun h => ?_⟩
  rcases (h ⟨some "", some "x", none⟩ ⟨".x", rfl⟩).1 with ⟨drv, hdrv, hne⟩
  simp only [Option.some.injEq] at hdrv
  exact hne hdrv.symm

/-- C5 amended: constructing the pairing ID succeeds with
"{driver_id}.{device_id}" if and only if both components are present
(not None); when either is missing it raises InvalidKeyException.
(Emptiness of the strings is not checked by the code.) -/
theorem pairing_id_iff_components_present (pd : PairedDevice) :
    ((∃ drv dev, pd.driver_id = some drv ∧ pd.device_id = some dev ∧
        pd.pairing_id = .ok (drv ++ "." ++ dev)) ↔
      (pd.driver_id ≠ none ∧ pd.device_id ≠ none)) ∧
    ((pd.driver_id = none ∨ pd.device_id = none) →
      pd.pairing_id = .error .invalidKey) := by
  obtain ⟨drv, dev, nm⟩ := pd
  cases drv <;> cases dev <;> simp [PairedDevice.pairing_id]

/-! ### C6 — read_devices checks the cache before resolving the driver -/

/-- C6 counterexample: with a listing cached under "devices(ghost)",
`read_devices "ghost"` returns the cached listing even though "ghost" is
not an installed driver — so the claim "fails with DriverNotFound in
every cache state, the driver is always resolved first" is false. -/
theorem read_devices_stale_cache_cex :
    ("ghost" ∉ (read_drivers ([] : Env)).1.map DeviceDriverDescriptor.driver_id) ∧
    read_devices [] stale_listing_state (some "ghost") =
      ⟨.ok [⟨"d1", "Ghost Device"⟩], stale_listing_state, []⟩ := by
  constructor
  · simp [read_drivers]
  · rfl

/-- C6 amended: for a driver_id that is not installed, `read_devices`
fails with DriverNotFoundException (propagated unchanged) in every cache
state with no entry under the "devices(driver_id)" key; when a device
listing is cached under that key, the cached listing is returned without
resolving the driver. -/
theorem read_devices_driver_not_found (env : Env) (s : ManagerState) (d : String)
    (hd : d ∉ (read_drivers env).1.map DeviceDriverDescriptor.driver_id) :
    (Cache.lookup s.cache ("devices(" ++ d ++ ")") = none →
      read_devices env s (some d) =
        ⟨.error (.driverNotFound (some d)), s, [.listDrivers]⟩) ∧
    (∀ devices,
      Cache.lookup s.cache ("devices(" ++ d ++ ")") = some (.listing devices) →
      read_devices env s (some d) = ⟨.ok devices, s, []⟩) := by
  have hfil : (read_drivers env).1.filter
      (fun descriptor => some descriptor.driver_id == some d) = [] := by
    refine List.filter_eq_nil_iff.mpr (fun x hx => ?_)
    simp only [beq_iff_eq, Option.some.injEq]
    intro he
    exact hd (List.mem_map.mpr ⟨x, hx, he⟩)
  constructor
  · intro hc
    simp only [read_devices, pyStr]
    rw [hc]
    unfold retrieve_driver
    rw [hfil]
    rfl
  · intro devices hc
    simp only [read_devices, pyStr]
    rw [hc]

/-- C6 witness for the amended claim: the empty installation and the
identifier "ghost", once with an empty cache and once with the stale
listing cached. -/
theorem read_devices_driver_not_found_witness :
    (Cache.lookup empty_state.cache ("devices(" ++ "ghost" ++ ")") = none →
      read_devices [] empty_state (some "ghost") =
        ⟨.error (.driverNotFound (some "ghost")), empty_state, [.listDrivers]⟩) ∧
    (∀ devices,
      Cache.lookup empty_state.cache ("devices(" ++ "ghost" ++ ")") =
        some (.listing devices) →
      read_devices [] empty_state (some "ghost") = ⟨.ok devices, empty_state, []⟩) :=
  read_devices_driver_not_found [] empty_state "ghost" (by simp [read_drivers])

/-! ### C7 — executing against an unknown pairing ID makes no driver call -/

/-- C7: for a pairing_id absent from both the paired-device store and the
cache, `execute_device_command` fails with the DeviceNotFoundException
for that pairing ID, leaves the state unchanged and emits no driver-layer
event: the failure happens before any resolution, instantiation or
command execution is attempted. -/
theorem execute_unknown_pairing_id (env : Env) (s : ManagerState)
    (pid : String) (command_id : Nat)
    (hc : Cache.lookup s.cache pid = none)
    (hs : Store.lookup s.store (key_from_pairing_id pid) = none) :
    execute_device_command env s pid command_id =
      ⟨.error (pairing_id_not_found pid), s, []⟩ := by
  unfold execute_device_command device_instance_for_pairing_id get_paired_device
  rw [hc, hs]
  rfl

/-- C7 witness: `execute_command("unknown.pid", 1)` in the demo
installation with nothing paired and nothing cached. -/
theorem execute_unknown_pairing_id_witness :
    execute_device_command demo_env empty_state "unknown.pid" 1 =
      ⟨.error (pairing_id_not_found "unknown.pid"), empty_state, []⟩ :=
  execute_unknown_pairing_id demo_env empty_state "unknown.pid" 1 rfl rfl

/-! ### C2 — unpair_device does not invalidate the instance cache -/

/-- C2 (bug evidence): resolving the demo instance caches it under the
pairing ID; `unpair_device` then deletes only the store record and leaves
that cache entry in place, so a subsequent
`device_instance_for_pairing_id` returns the stale cached handle — with
no driver call and no store check — although `get_paired_device` already
fails with DeviceNotFoundException for the same pairing ID. -/
theorem unpair_leaves_stale_cache_entry :
    device_instance_for_pairing_id demo_env demo_paired_state "sony-tv.livingroom" =
      ⟨.ok demo_instance, demo_cached_state,
        [.listDrivers, .createInstance "sony-tv" "livingroom"]⟩ ∧
    unpair_device demo_cached_state "sony-tv.livingroom" = (.ok (), demo_stale_state) ∧
    Cache.lookup demo_stale_state.cache "sony-tv.livingroom" =
      some (.inst demo_instance) ∧
    get_paired_device demo_stale_state.store "sony-tv.livingroom" =
      .error (pairing_id_not_found "sony-tv.livingroom") ∧
    device_instance_for_pairing_id demo_env demo_stale_state "sony-tv.livingroom" =
      ⟨.ok demo_instance, demo_stale_state, []⟩ :=
  ⟨rfl, rfl, rfl, rfl, rfl⟩

/-! ### C9 — cache transparency of instance resolution -/

/-- C9: for a pairing ID present in the store, with the cache coherent at
that key, `device_instance_for_pairing_id` returns the same instance as
the forced-eviction run (hit path and miss path are observationally
equivalent); moreover any successful resolution leaves a state in which
both the cache-hit rerun and the forced-eviction rerun return that very
instance again. -/
theorem resolve_instance_cache_transparent (env : Env) (s : ManagerState)
    (pid : String)
    (hstore : (Store.lookup s.store (key_from_pairing_id pid)).isSome = true)
    (hcoh : cache_coherent_at env s pid) :
    (device_instance_for_pairing_id env s pid).res =
      (resolve_instance_evicted env s pid).res ∧
    (∀ di s1 ev,
      device_instance_for_pairing_id env s pid = ⟨.ok di, s1, ev⟩ →
      (device_instance_for_pairing_id env s1 pid).res = .ok di ∧
      (resolve_instance_evicted env s1 pid).res = .ok di) := by
  obtain ⟨pd, hpd⟩ := Option.isSome_iff_exists.mp hstore
  have hgp : get_paired_device s.store pid = .ok pd := by
    unfold get_paired_device
    rw [hpd]
  constructor
  · rcases hlk : Cache.lookup s.cache pid with _ | v
    · have heq : Cache.erase s.cache pid = s.cache :=
        Cache.erase_of_lookup_none _ _ hlk
      unfold resolve_instance_evicted
      rw [heq]
    · obtain ⟨di0, hv, hres0⟩ := hcoh v hlk
      subst hv
      rw [hres0]
      unfold device_instance_for_pairing_id
      rw [hlk]
  · intro di s1 ev h
    rcases hlk : Cache.lookup s.cache pid with _ | v
    · -- the resolution was a miss: decompose the run recorded in h
      unfold device_instance_for_pairing_id at h
      rw [hlk, hgp] at h
      simp only [] at h
      rcases h1 : retrieve_driver_and_device env s pd.driver_id pd.device_id
        with ⟨r1, s2, ev1⟩
      rw [h1] at h
      have hframe : s2.store = s.store := by
        have := retrieve_driver_and_device_store env s pd.driver_id pd.device_id
        rw [h1] at this
        exact this
      cases r1 with
      | error e => simp at h
      | ok dd =>
        obtain ⟨driver, device⟩ := dd
        simp only [] at h
        rcases h2 : driver.create_device_instance device.device_id with msg | di'
        · rw [h2] at h
          simp at h
        · rw [h2] at h
          simp only [MRes.mk.injEq, Except.ok.injEq] at h
          obtain ⟨rfl, hs1, -⟩ := h
          constructor
          · -- rerun from s1: the fresh instance is a cache hit
            unfold device_instance_for_pairing_id
            rw [← hs1]
            dsimp only
            rw [Cache.lookup_insert_self]
          · -- forced-eviction rerun from s1 recomputes the same instance
            unfold resolve_instance_evicted
            rw [← hs1]
            dsimp only
            rw [Cache.erase_insert_self]
            have hread : (read_devices env ⟨Cache.erase s2.cache pid, s2.store⟩
                  pd.driver_id).res = (read_devices env s pd.driver_id).res := by
              by_cases hkd : ("devices(" ++ pyStr pd.driver_id ++ ")") = pid
              · refine read_devices_res_of_miss_miss env s _ pd.driver_id ?_ ?_
                · rw [hkd]
                  exact hlk
                · show Cache.lookup (Cache.erase s2.cache pid) _ = none
                  rw [hkd]
                  exact Cache.lookup_erase_self _ _
              · obtain ⟨devs, ev2, hrd⟩ := retrieve_driver_and_device_ok_read
                  env s pd.driver_id pd.device_id driver device s2 ev1 h1
                have hcache := read_devices_ok_caches env s s2 pd.driver_id devs ev2 hrd
                have hht : Cache.lookup (Cache.erase s2.cache pid)
                    ("devices(" ++ pyStr pd.driver_id ++ ")") =
                    some (.listing devs) := by
                  rw [Cache.lookup_erase_ne _ _ _ hkd]
                  exact hcache
                rw [read_devices_hit env ⟨Cache.erase s2.cache pid, s2.store⟩
                  pd.driver_id devs hht, hrd]
            have hres_eq := retrieve_driver_and_device_res_eq env s
              ⟨Cache.erase s2.cache pid, s2.store⟩ pd.driver_id pd.device_id hread
            rw [h1] at hres_eq
            have hgp2 : get_paired_device s2.store pid = .ok pd := by
              rw [hframe]
              exact hgp
            unfold device_instance_for_pairing_id
            rw [Cache.lookup_erase_self, hgp2]
            simp only []
            rcases h4 : retrieve_driver_and_device env
                ⟨Cache.erase s2.cache pid, s2.store⟩ pd.driver_id pd.device_id
              with ⟨r4, t2, ev4⟩
            rw [h4] at hres_eq
            simp only [] at hres_eq
            subst hres_eq
            simp only []
            rw [h2]
    · -- the resolution was a cache hit
      obtain ⟨di0, hv, hres0⟩ := hcoh v hlk
      subst hv
      have hcomp : device_instance_for_pairing_id env s pid = ⟨.ok di0, s, []⟩ := by
        unfold device_instance_for_pairing_id
        rw [hlk]
      rw [hcomp] at h
      simp only [MRes.mk.injEq, Except.ok.injEq] at h
      obtain ⟨rfl, hs1, -⟩ := h
      constructor
      · rw [← hs1, hcomp]
      · rw [← hs1]
        exact hres0

/-- C9 witness: the demo paired state (record stored, nothing cached
under the pairing ID, hence vacuously coherent). -/
theorem resolve_instance_cache_transparent_witness :
    (device_instance_for_pairing_id demo_env demo_paired_state "sony-tv.livingroom").res =
      (resolve_instance_evicted demo_env demo_paired_state "sony-tv.livingroom").res ∧
    (∀ di s1 ev,
      device_instance_for_pairing_id demo_env demo_paired_state "sony-tv.livingroom" =
        ⟨.ok di, s1, ev⟩ →
      (device_instance_for_pairing_id demo_env s1 "sony-tv.livingroom").res = .ok di ∧
      (resolve_instance_evicted demo_env s1 "sony-tv.livingroom").res = .ok di) :=
  resolve_instance_cache_transparent demo_env demo_paired_state "sony-tv.livingroom"
    (by rfl)
    (by
      intro v hv
      rw [show Cache.lookup demo_paired_state.cache "sony-tv.livingroom" = none
        from rfl] at hv
      exact Option.noConfusion hv)

/-! ### C10 — the pairing-ID message lands in the driver_id slot -/

/-- C10: the DeviceNotFoundException raised on a failed pairing-ID lookup
by `get_paired_device` and `unpair_device` carries the pairing-ID-specific
message as its positional first argument, the constructor's `driver_id`;
`message` stays None, so `__str__` renders the generic driver/device
template with the intended message embedded as the driver ID and with
"None" as the device ID — never the intended message itself. -/
theorem pairing_lookup_error_renders_generic (store : Store) (c : Cache)
    (pid : String)
    (h : Store.lookup store (key_from_pairing_id pid) = none) :
    get_paired_device store pid =
      .error (.deviceNotFound
        (some ("The device with the pairing ID '" ++ pid ++ "' wasn't found."))
        none none) ∧
    (unpair_device ⟨c, store⟩ pid).1 =
      .error (.deviceNotFound
        (some ("The device with the pairing ID '" ++ pid ++ "' wasn't found."))
        none none) ∧
    deviceNotFoundStr
        (some ("The device with the pairing ID '" ++ pid ++ "' wasn't found."))
        none none =
      "The driver with the ID '" ++
        ("The device with the pairing ID '" ++ pid ++ "' wasn't found.") ++
        "' doesn't find a device with ID '" ++ "None" ++ "'." ∧
    deviceNotFoundStr
        (some ("The device with the pairing ID '" ++ pid ++ "' wasn't found."))
        none none ≠
      "The device with the pairing ID '" ++ pid ++ "' wasn't found." := by
  refine ⟨?_, ?_, rfl, ?_⟩
  · simp [get_paired_device, pairing_id_not_found, h]
  · simp [unpair_device, Store.delete, pairing_id_not_found, h]
  · intro he
    rw [show deviceNotFoundStr
        (some ("The device with the pairing ID '" ++ pid ++ "' wasn't found."))
        none none =
      "The driver with the ID '" ++
        ("The device with the pairing ID '" ++ pid ++ "' wasn't found.") ++
        "' doesn't find a device with ID '" ++ "None" ++ "'." from rfl] at he
    have hlen := congrArg String.length he
    have hA : ("The driver with the ID '" : String).length = 24 := rfl
    simp only [String.length_append, hA] at hlen
    omega

/-- C10 witness: the lookup of "unknown.pid" in the empty store. -/
theorem pairing_lookup_error_renders_generic_witness :
    get_paired_device ([] : Store) "unknown.pid" =
      .error (pairing_id_not_found "unknown.pid") := by
  simpa [pairing_id_not_found] using
    (pairing_lookup_error_renders_generic [] [] "unknown.pid" rfl).1

end PiControlHub
